import Mathlib

/-!
Shallow embedding of the ai-travel-planner query tools.

Source files embedded here:
  src/src/utils/data_loader.py   (DataLoader.load_json and its cache)
  src/src/tools/budget_tool.py   (BudgetEstimationTool, calculate_budget)
  src/src/tools/weather_tool.py  (WeatherLookupTool, get_weather_condition)
  src/src/tools/flight_tool.py   (FlightSearchTool)
  src/src/tools/hotel_tool.py    (HotelRecommendationTool)
  src/src/tools/places_tool.py   (PlacesDiscoveryTool)
  src/config/settings.py         (CITY_COORDINATES, DEFAULT_DAILY_EXPENSE)

Modelling conventions: Python floats become rationals, Python ints become
Int, JSON dictionaries become structures with Option fields (a missing key
is none).  json.loads together with the per-field get/str/int/float
coercions is abstracted into a ToolInput value: jsonError models a
json.JSONDecodeError, extractError models any exception raised while
extracting a field, and ok carries the typed field values.  The data file
read performed by DataLoader is passed to a tool as an Except value, since
DataLoader.load_json may raise.  Each tool run function is total, mirroring
the try/except wrapper that converts every exception into a string.
-/

/-- Python str.lower (ASCII case folding, as used on the city names). -/
def pyLower (s : String) : String := ⟨s.data.map Char.toLower⟩

/-- Python str.strip: remove leading and trailing whitespace. -/
def pyStrip (s : String) : String :=
  ⟨((s.data.dropWhile Char.isWhitespace).reverse.dropWhile Char.isWhitespace).reverse⟩

/-- Python str.title as used on the weather city name: uppercase each letter
that follows a non-letter, lowercase the other letters. -/
def pyTitle (s : String) : String :=
  ⟨(s.data.foldl
      (fun (acc : List Char × Bool) c =>
        if c.isAlpha then
          ((if acc.2 then c.toLower else c.toUpper) :: acc.1, true)
        else (c :: acc.1, false))
      ([], false)).1.reverse⟩

/-- Python str.split on a single separator character, over character lists. -/
def splitChar (sep : Char) : List Char → List Char → List (List Char)
  | [], acc => [acc.reverse]
  | c :: cs, acc =>
    if c = sep then acc.reverse :: splitChar sep cs [] else splitChar sep cs (c :: acc)

/-- Value of a fixed-width decimal digit field; none if empty or not all digits. -/
def digitsVal (cs : List Char) : Option Nat :=
  if cs ≠ [] ∧ cs.all Char.isDigit then
    some (cs.foldl (fun n c => 10 * n + (c.toNat - 48)) 0)
  else none

/-- Gregorian leap year test. -/
def isLeap (y : Int) : Bool := y % 4 = 0 ∧ (y % 100 ≠ 0 ∨ y % 400 = 0)

/-- Days in a month of the proleptic Gregorian calendar. -/
def daysInMonth (y : Int) (m : Nat) : Nat :=
  match m with
  | 1 => 31 | 2 => if isLeap y then 29 else 28 | 3 => 31 | 4 => 30
  | 5 => 31 | 6 => 30 | 7 => 31 | 8 => 31 | 9 => 30 | 10 => 31
  | 11 => 30 | 12 => 31 | _ => 0

/-- Days of year y that precede the first day of month m. -/
def daysBeforeMonth (y : Int) (m : Nat) : Nat :=
  (List.range (m - 1)).foldl (fun acc i => acc + daysInMonth y (i + 1)) 0

/-- Proleptic Gregorian ordinal of a date, day 1-1-1 being 0 here. -/
def toOrdinal (y : Int) (m d : Nat) : Int :=
  365 * (y - 1) + (y - 1) / 4 - (y - 1) / 100 + (y - 1) / 400
    + (daysBeforeMonth y m : Int) + (d - 1 : Nat)

/-- Parse a strict YYYY-MM-DD date field, with range validation. -/
def parseDate (cs : List Char) : Option (Int × Nat × Nat) :=
  match splitChar '-' cs [] with
  | [ys, ms, ds] =>
    if ys.length = 4 ∧ ms.length = 2 ∧ ds.length = 2 then
      match digitsVal ys, digitsVal ms, digitsVal ds with
      | some y, some m, some d =>
        if 1 ≤ y ∧ 1 ≤ m ∧ m ≤ 12 ∧ 1 ≤ d ∧ d ≤ daysInMonth y m then
          some ((y : Int), m, d)
        else none
      | _, _, _ => none
    else none
  | _ => none

/-- Parse a strict HH:MM or HH:MM:SS time field as seconds of the day. -/
def parseTime (cs : List Char) : Option Nat :=
  match splitChar ':' cs [] with
  | [hs, ms] =>
    if hs.length = 2 ∧ ms.length = 2 then
      match digitsVal hs, digitsVal ms with
      | some h, some m => if h ≤ 23 ∧ m ≤ 59 then some (h * 3600 + m * 60) else none
      | _, _ => none
    else none
  | [hs, ms, ss] =>
    if hs.length = 2 ∧ ms.length = 2 ∧ ss.length = 2 then
      match digitsVal hs, digitsVal ms, digitsVal ss with
      | some h, some m, some s =>
        if h ≤ 23 ∧ m ≤ 59 ∧ s ≤ 59 then some (h * 3600 + m * 60 + s) else none
      | _, _, _ => none
    else none
  | _ => none

/-- Model of datetime.fromisoformat for the YYYY-MM-DD[THH:MM[:SS]] forms the
flight data uses, mapped to absolute integral seconds (datetime values have
second precision here); none models a raised ValueError. -/
def fromisoformat (s : String) : Option Int :=
  match splitChar 'T' s.data [] with
  | [ds] => (parseDate ds).map (fun ymd => (toOrdinal ymd.1 ymd.2.1 ymd.2.2) * 86400)
  | [ds, ts] =>
    match parseDate ds, parseTime ts with
    | some ymd, some t => some ((toOrdinal ymd.1 ymd.2.1 ymd.2.2) * 86400 + (t : Int))
    | _, _ => none
  | _ => none

/-- Round half to even, the rounding Python round uses. -/
def roundHalfEven (q : ℚ) : Int :=
  if q - ⌊q⌋ < 1 / 2 then ⌊q⌋
  else if 1 / 2 < q - ⌊q⌋ then ⌊q⌋ + 1
  else if ⌊q⌋ % 2 = 0 then ⌊q⌋ else ⌊q⌋ + 1

/-- Python round(x, 1). -/
def pyRound1 (q : ℚ) : ℚ := (roundHalfEven (q * 10) : ℚ) / 10

/-- The string begins with the text Error, the failure marker of the tool
invocation contract. -/
def startsWithError (s : String) : Prop := ∃ t : String, s = "Error" ++ t

theorem String.append_assoc_mk (a b c : String) : a ++ b ++ c = a ++ (b ++ c) := by
  cases a; cases b; cases c
  exact congrArg String.mk (List.append_assoc _ _ _)

theorem startsWithError_append {s : String} (t : String) (h : startsWithError s) :
    startsWithError (s ++ t) := by
  obtain ⟨u, hu⟩ := h
  exact ⟨u ++ t, by rw [hu, String.append_assoc_mk]⟩

/-- A repeated character, for the horizontal rules of the reports. -/
def lineOf (c : Char) (n : Nat) : String := ⟨List.replicate n c⟩

/-! ### Stable sorting by a key

Python sorted(xs, key) is a stable sort.  List.insertionSort with the
non-strict key comparison inserts each element in front of the equal-key
elements that came later in the list, which is the same stable order, so it
is the embedding of Python sorted with a key function. -/

theorem filter_orderedInsert_key {α κ : Type} [LinearOrder κ] (key : α → κ) (k : κ)
    (a : α) (l : List α) :
    (List.orderedInsert (fun x y => key x ≤ key y) a l).filter (fun x => key x == k) =
      ((a :: l).filter (fun x => key x == k)) := by
  induction l with
  | nil => rfl
  | cons b l ih =>
    by_cases h : key a ≤ key b
    · rw [List.orderedInsert, if_pos h]
    · rw [List.orderedInsert, if_neg h]
      by_cases ha : key a = k
      · have hb : ¬ key b = k := fun hbk => h (le_of_eq (ha.trans hbk.symm))
        simp only [List.filter_cons, ha, hb, beq_self_eq_true, if_true, if_false,
          beq_iff_eq, ih, decide_eq_true_eq, if_pos, if_neg hb]
      · simp only [List.filter_cons, beq_iff_eq, ha, decide_eq_true_eq, if_neg ha, ih] at ih ⊢
        by_cases hb : key b = k <;> simp [hb, ih, List.filter_cons, ha]

theorem filter_insertionSort_key {α κ : Type} [LinearOrder κ] (key : α → κ) (k : κ)
    (l : List α) :
    (List.insertionSort (fun x y => key x ≤ key y) l).filter (fun x => key x == k) =
      l.filter (fun x => key x == k) := by
  induction l with
  | nil => rfl
  | cons a l ih =>
    rw [List.insertionSort, filter_orderedInsert_key]
    simp only [List.filter_cons, ih]

theorem pairwise_insertionSort_key {α κ : Type} [LinearOrder κ] (key : α → κ)
    (l : List α) :
    (List.insertionSort (fun x y => key x ≤ key y) l).Pairwise
      (fun x y => key x ≤ key y) := by
  haveI : IsTotal α (fun x y => key x ≤ key y) := ⟨fun a b => le_total (key a) (key b)⟩
  haveI : IsTrans α (fun x y => key x ≤ key y) := ⟨fun _ _ _ hab hbc => le_trans hab hbc⟩
  exact List.sorted_insertionSort _ l

theorem length_insertionSort_key {α κ : Type} [LinearOrder κ] (key : α → κ)
    (l : List α) :
    (List.insertionSort (fun x y => key x ≤ key y) l).length = l.length :=
  List.length_insertionSort _ l

/-! ### Data Store Adapter (src/src/utils/data_loader.py) -/

/-- The two exceptions DataLoader.load_json can raise. -/
inductive DataLoader.LoadError : Type
  | fileNotFound (path : String)
  | jsonDecodeError (path : String)
deriving DecidableEq

/-- The process-wide cache, keyed by the path string. -/
abbrev DataLoader.Cache (δ : Type) : Type := List (String × δ)

/-- DataLoader.load_json.  The filesystem is a map: none means the file is
absent, some none means its content is not valid JSON, some (some data) means
it parses to data.  The result carries the returned array, the cache after the
call, and whether the call read the file from disk. -/
def DataLoader.load_json {δ : Type} (fs : String → Option (Option δ))
    (cache : DataLoader.Cache δ) (file_path : String) :
    Except DataLoader.LoadError (δ × DataLoader.Cache δ × Bool) :=
  match cache.lookup file_path with
  | some data => .ok (data, cache, false)
  | none =>
    match fs file_path with
    | none => .error (.fileNotFound file_path)
    | some none => .error (.jsonDecodeError file_path)
    | some (some data) => .ok (data, (file_path, data) :: cache, true)

/-! ### Tool invocation boundary

json.loads plus the per-field get/str/int/float coercions of a tool are
abstracted into a ToolInput: jsonError models a json.JSONDecodeError raised by
json.loads, extractError models any other exception raised while extracting
the named parameters, ok carries the extracted values (a missing key is none,
defaults are applied inside the run function exactly where the source applies
them). -/
inductive ToolInput (P : Type) : Type
  | jsonError
  | extractError (msg : String)
  | ok (p : P)

/-! ### Budget Estimation Tool (src/src/tools/budget_tool.py) -/

/-- settings.DEFAULT_DAILY_EXPENSE with its default environment value 2000. -/
def DEFAULT_DAILY_EXPENSE : ℚ := 2000

/-- The dictionary calculate_budget returns. -/
structure BudgetBreakdown : Type where
  flight_cost : ℚ
  hotel_cost : ℚ
  food_travel_cost : ℚ
  total_cost : ℚ
  per_day_average : ℚ
deriving DecidableEq

/-- calculate_budget (budget_tool.py lines 91-122). -/
def calculate_budget (flight_price hotel_price_per_night : ℚ) (num_nights : Int)
    (daily_expense : Option ℚ) : BudgetBreakdown :=
  let d : ℚ := daily_expense.getD DEFAULT_DAILY_EXPENSE
  let hotel_total : ℚ := hotel_price_per_night * (num_nights : ℚ)
  let food_travel_total : ℚ := d * ((num_nights + 1 : Int) : ℚ)
  let total_cost : ℚ := flight_price + hotel_total + food_travel_total
  { flight_cost := flight_price
    hotel_cost := hotel_total
    food_travel_cost := food_travel_total
    total_cost := total_cost
    per_day_average := total_cost / ((num_nights + 1 : Int) : ℚ) }

/-- The named parameters of BudgetEstimationTool. -/
structure BudgetQuery : Type where
  flight_price : Option ℚ
  hotel_price_per_night : Option ℚ
  num_nights : Option Int
  daily_expense : Option ℚ

/-- Rendering of the budget report (budget_tool.py lines 58-76); the Python
number format specifiers are approximated by toString. -/
def formatBudgetReport (flight_price hotel_price_per_night : ℚ) (num_nights : Int)
    (daily_expense hotel_total food_travel_total total_cost : ℚ) : String :=
  "Budget Breakdown\n" ++ lineOf '=' 50 ++ "\n\n"
    ++ "Flight Cost:          Rs" ++ toString flight_price ++ "\n"
    ++ "Hotel (" ++ toString num_nights ++ " nights):  Rs" ++ toString hotel_total ++ "\n"
    ++ "    (Rs" ++ toString hotel_price_per_night ++ " per night)\n"
    ++ "Food & Local Travel:  Rs" ++ toString food_travel_total ++ "\n"
    ++ "    (Rs" ++ toString daily_expense ++ " per day x " ++ toString (num_nights + 1)
    ++ " days)\n" ++ "\n" ++ lineOf '-' 50 ++ "\n"
    ++ "Total Estimated Cost: Rs" ++ toString total_cost ++ "\n" ++ lineOf '=' 50 ++ "\n"
    ++ "\nBudget Tips:\n"
    ++ (if 30000 < total_cost then "   - Consider booking in advance for better rates\n" else "")
    ++ (if 4000 < hotel_price_per_night then
          "   - Look for hotels slightly away from tourist hotspots\n" else "")
    ++ "   - Use local transport to save on daily expenses\n"
    ++ "   - Try local eateries for authentic and affordable food\n"

/-- BudgetEstimationTool run (budget_tool.py lines 33-84). -/
def BudgetEstimationTool.run (inp : ToolInput BudgetQuery) : String :=
  match inp with
  | .jsonError => "Error: Invalid JSON format."
  | .extractError msg => "Error calculating budget: " ++ msg
  | .ok q =>
    let flight_price := q.flight_price.getD 0
    let hotel_price_per_night := q.hotel_price_per_night.getD 0
    let num_nights := q.num_nights.getD 1
    let daily_expense := q.daily_expense.getD DEFAULT_DAILY_EXPENSE
    let hotel_total := hotel_price_per_night * (num_nights : ℚ)
    let food_travel_total := daily_expense * ((num_nights + 1 : Int) : ℚ)
    let total_cost := flight_price + hotel_total + food_travel_total
    formatBudgetReport flight_price hotel_price_per_night num_nights daily_expense
      hotel_total food_travel_total total_cost

/-! ### Weather Lookup Tool (src/src/tools/weather_tool.py, config/settings.py) -/

/-- settings.CITY_COORDINATES (settings.py lines 60-81). -/
def CITY_COORDINATES : List (String × ℚ × ℚ) :=
  [("mumbai", 19.0760, 72.8777), ("delhi", 28.7041, 77.1025),
   ("bangalore", 12.9716, 77.5946), ("kolkata", 22.5726, 88.3639),
   ("chennai", 13.0827, 80.2707), ("hyderabad", 17.3850, 78.4867),
   ("pune", 18.5204, 73.8567), ("ahmedabad", 23.0225, 72.5714),
   ("jaipur", 26.9124, 75.7873), ("goa", 15.2993, 74.1240),
   ("kochi", 9.9312, 76.2673), ("udaipur", 24.5854, 73.7125),
   ("varanasi", 25.3176, 82.9739), ("shimla", 31.1048, 77.1734),
   ("manali", 32.2432, 77.1892), ("darjeeling", 27.0410, 88.2663),
   ("agra", 27.1767, 78.0081), ("amritsar", 31.6340, 74.8723),
   ("mysore", 12.2958, 76.6394), ("rishikesh", 30.0869, 78.2676)]

/-- Settings.get_city_coordinates (settings.py lines 124-135). -/
def get_city_coordinates (city : String) : Option (ℚ × ℚ) :=
  CITY_COORDINATES.lookup (pyLower city)

/-- get_weather_condition (weather_tool.py lines 174-194). -/
def get_weather_condition (precipitation windspeed : ℚ) : String :=
  if 10 < precipitation then "🌧️  Rainy"
  else if 2 < precipitation then "🌦️  Light Rain"
  else if 30 < windspeed then "💨  Windy"
  else if 15 < windspeed then "🌤️  Breezy"
  else "☀️  Clear/Sunny"

/-- One element of the list fetch_weather returns (weather_tool.py lines 155-162). -/
structure WeatherDay : Type where
  date : String
  temp_max : Option Int
  temp_min : Option Int
  precipitation : ℚ
  windspeed : ℚ
  condition : String

/-- The named parameters of WeatherLookupTool. -/
structure WeatherQuery : Type where
  city : Option String
  start_date : Option String
  num_days : Option Int

/-- Rendering of one forecast day (weather_tool.py lines 75-84). -/
def formatWeatherDay (d : WeatherDay) : String :=
  d.date ++ ":\n" ++ "   Temperature: "
    ++ toString (d.temp_min.getD 0) ++ "C - " ++ toString (d.temp_max.getD 0) ++ "C\n"
    ++ "   " ++ d.condition ++ "\n" ++ lineOf '-' 50 ++ "\n"

/-- Rendering of the forecast report header and days (weather_tool.py lines 71-84). -/
def formatWeatherReport (city start_date : String) (num_days : Int)
    (weather_data : List WeatherDay) : String :=
  "Weather Forecast for " ++ pyTitle city ++ "\n"
    ++ "From " ++ start_date ++ " (" ++ toString num_days ++ " days)\n"
    ++ lineOf '=' 50 ++ "\n\n"
    ++ String.join (weather_data.map formatWeatherDay)

/-- WeatherLookupTool run (weather_tool.py lines 33-92).  The outcome of
fetch_weather is passed in as weather_data: fetch_weather catches every
network or parsing failure itself and returns the empty list then. -/
def WeatherLookupTool.run (inp : ToolInput WeatherQuery)
    (weather_data : List WeatherDay) : String :=
  match inp with
  | .jsonError => "Error: Invalid JSON format."
  | .extractError msg => "Error fetching weather: " ++ msg
  | .ok q =>
    let city := pyStrip (q.city.getD "")
    let start_date := pyStrip (q.start_date.getD "")
    let num_days := q.num_days.getD 7
    if city = "" || start_date = "" then
      "Error: Both city and start_date are required."
    else
      match get_city_coordinates city with
      | none => "Error: Coordinates not found for " ++ (city ++ ". Please check the city name.")
      | some _ =>
        if weather_data.isEmpty then
          "Error: Could not fetch weather data for " ++ (city ++ ".")
        else formatWeatherReport city start_date num_days weather_data

/-! ### Flight Search Tool (src/src/tools/flight_tool.py) -/

/-- One flight record of data/flights.json; every JSON key may be absent.
The JSON keys from and to are named fromCity and toCity because from is a
reserved word. -/
structure Flight : Type where
  fromCity : Option String
  toCity : Option String
  price : Option ℚ
  duration_hours : Option ℚ
  departure_time : Option String
  arrival_time : Option String
  airline : Option String
  flight_id : Option String
deriving DecidableEq

/-- The named parameters of FlightSearchTool. -/
structure FlightQuery : Type where
  source : Option String
  destination : Option String
  preference : Option String

/-- The filter predicate of flight_tool.py lines 44-48. -/
def flightMatches (source destination : String) (f : Flight) : Bool :=
  pyLower (f.fromCity.getD "") == pyLower source
    && pyLower (f.toCity.getD "") == pyLower destination

/-- The city filter of flight_tool.py lines 44-48. -/
def filteredFlights (source destination : String) (flights : List Flight) : List Flight :=
  flights.filter (flightMatches source destination)

/-- The duration derivation of flight_tool.py lines 54-64, acting on one
record.  In the source this is an in-place dictionary update of the record. -/
def withDuration (f : Flight) : Flight :=
  if f.duration_hours.isSome then f
  else
    match fromisoformat (f.departure_time.getD ""), fromisoformat (f.arrival_time.getD "") with
    | some dep, some arr =>
      { f with duration_hours := some (pyRound1 (((arr - dep : Int) : ℚ) / 3600)) }
    | _, _ => { f with duration_hours := some 0 }

/-- Sort key of the cheapest preference (flight_tool.py line 70). -/
def priceKey (f : Flight) : ℚ := f.price.getD 999999

/-- Sort key of the fastest preference (flight_tool.py line 68). -/
def durationKey (f : Flight) : ℚ := f.duration_hours.getD 999

/-- The preference dispatch of flight_tool.py lines 66-70; Python sorted is
stable, see the stable sorting section. -/
def sortedFlights (preference : String) (l : List Flight) : List Flight :=
  if preference = "fastest" then
    List.insertionSort (fun a b => durationKey a ≤ durationKey b) l
  else
    List.insertionSort (fun a b => priceKey a ≤ priceKey b) l

/-- The departure clock time extraction of flight_tool.py lines 85-87. -/
def extractClock (dep_time : String) : String :=
  if dep_time.data.contains 'T' then
    match splitChar 'T' dep_time.data [] with
    | _ :: t :: _ => ⟨t.take 5⟩
    | _ => dep_time
  else dep_time

/-- Rendering of one flight option (flight_tool.py lines 79-91). -/
def formatFlightOption (i : Nat) (f : Flight) : String :=
  "\nOption " ++ toString i ++ ":\n"
    ++ "  Airline: " ++ f.airline.getD "N/A" ++ "\n"
    ++ "  Price: Rs" ++ toString (f.price.getD 0) ++ "\n"
    ++ "  Duration: " ++ toString (f.duration_hours.getD 0) ++ " hours\n"
    ++ "  Departure: " ++ extractClock (f.departure_time.getD "N/A") ++ "\n"
    ++ "  Flight ID: " ++ f.flight_id.getD "N/A" ++ "\n"
    ++ lineOf '-' 50 ++ "\n"

/-- Rendering of the flight report (flight_tool.py lines 76-91): the count of
all matches and the top three options. -/
def formatFlightReport (source destination : String) (total : Nat)
    (top : List Flight) : String :=
  "Found " ++ toString total ++ " flights from " ++ source ++ " to " ++ destination
    ++ ".\n\n" ++ "Top 3 Options:\n" ++ lineOf '=' 50 ++ "\n"
    ++ String.join (top.enum.map (fun p => formatFlightOption (p.1 + 1) p.2))

/-- FlightSearchTool run (flight_tool.py lines 27-99).  loadRes is the
outcome of DataLoader.load_json on settings.FLIGHTS_PATH: error carries the
message of a raised exception. -/
def FlightSearchTool.run (inp : ToolInput FlightQuery)
    (loadRes : Except String (List Flight)) : String :=
  match inp with
  | .jsonError => "Error: Invalid JSON format."
  | .extractError msg => "Error searching flights: " ++ msg
  | .ok q =>
    let source := pyStrip (q.source.getD "")
    let destination := pyStrip (q.destination.getD "")
    let preference := pyLower (q.preference.getD "cheapest")
    if source = "" || destination = "" then
      "Error: Both source and destination are required."
    else
      match loadRes with
      | .error msg => "Error searching flights: " ++ msg
      | .ok flights =>
        let filtered := filteredFlights source destination flights
        if filtered.isEmpty then
          "No flights found from " ++ (source ++ (" to " ++ (destination ++ ".")))
        else
          let sorted := sortedFlights preference (filtered.map withDuration)
          formatFlightReport source destination sorted.length (sorted.take 3)

/-- The effect of one FlightSearchTool invocation on the backing array the
Data Store Adapter caches, given that load_json returned that array: the
for-loop of flight_tool.py lines 54-64 updates the filtered records in
place, and filtered_flights aliases the cached dictionaries. -/
def FlightSearchTool.cacheAfter (inp : ToolInput FlightQuery)
    (flights : List Flight) : List Flight :=
  match inp with
  | .ok q =>
    let source := pyStrip (q.source.getD "")
    let destination := pyStrip (q.destination.getD "")
    if source = "" || destination = "" then flights
    else if (filteredFlights source destination flights).isEmpty then flights
    else flights.map (fun f => if flightMatches source destination f then withDuration f else f)
  | _ => flights

/-! ### Hotel Recommendation Tool (src/src/tools/hotel_tool.py) -/

/-- One hotel record of data/hotels.json. -/
structure Hotel : Type where
  city : Option String
  stars : Option ℚ
  price_per_night : Option ℚ
  name : Option String
  amenities : Option (List String)
  hotel_id : Option String
deriving DecidableEq

/-- The named parameters of HotelRecommendationTool. -/
structure HotelQuery : Type where
  city : Option String
  min_rating : Option Int
  max_price_per_night : Option ℚ

/-- Python truthiness of the max_price value: None and 0 are falsy. -/
def truthyNum (v : Option ℚ) : Bool :=
  match v with
  | none => false
  | some q => q != 0

/-- The city filter of hotel_tool.py lines 44-47. -/
def hotelCityFilter (city : String) (hotels : List Hotel) : List Hotel :=
  hotels.filter (fun h => pyLower (h.city.getD "") == pyLower city)

/-- The star rating filter of hotel_tool.py lines 53-56. -/
def hotelStarsFilter (min_rating : Int) (hotels : List Hotel) : List Hotel :=
  hotels.filter (fun h => (min_rating : ℚ) ≤ h.stars.getD 0)

/-- The price filter of hotel_tool.py lines 60-63; a record without the
price_per_night key gets the key value infinity there, hence never passes. -/
def hotelPriceFilter (max_price : ℚ) (hotels : List Hotel) : List Hotel :=
  hotels.filter (fun h =>
    match h.price_per_night with
    | some p => p ≤ max_price
    | none => false)

/-- The three filter stages combined, with the truthiness guard of line 59. -/
def hotelFiltered (city : String) (min_rating : Int) (max_price : Option ℚ)
    (hotels : List Hotel) : List Hotel :=
  let byStars := hotelStarsFilter min_rating (hotelCityFilter city hotels)
  if truthyNum max_price then hotelPriceFilter (max_price.getD 0) byStars else byStars

/-- Sort key of hotel_tool.py lines 69-72: descending stars, then ascending
price, as a lexicographic pair. -/
def hotelKey (h : Hotel) : Lex (ℚ × ℚ) :=
  toLex (-(h.stars.getD 0), h.price_per_night.getD 0)

/-- The two-level stable sort of hotel_tool.py lines 69-72. -/
def sortedHotels (l : List Hotel) : List Hotel :=
  List.insertionSort (fun a b => hotelKey a ≤ hotelKey b) l

/-- Rendering of one hotel option (hotel_tool.py lines 81-92). -/
def formatHotelOption (i : Nat) (h : Hotel) : String :=
  "\nOption " ++ toString i ++ ":\n"
    ++ "  Name: " ++ h.name.getD "N/A" ++ "\n"
    ++ "  Star Rating: " ++ toString (h.stars.getD 0) ++ " stars\n"
    ++ "  Price: Rs" ++ toString (h.price_per_night.getD 0) ++ "/night\n"
    ++ (match h.amenities.getD [] with
        | [] => ""
        | ams => "  Amenities: " ++ String.intercalate ", " ams ++ "\n")
    ++ "  Hotel ID: " ++ h.hotel_id.getD "N/A" ++ "\n"
    ++ lineOf '-' 50 ++ "\n"

/-- Rendering of the hotel report (hotel_tool.py lines 78-92). -/
def formatHotelReport (city : String) (total : Nat) (top : List Hotel) : String :=
  "Found " ++ toString total ++ " hotels in " ++ city ++ " (showing top 3).\n\n"
    ++ "Recommended Hotels:\n" ++ lineOf '=' 50 ++ "\n"
    ++ String.join (top.enum.map (fun p => formatHotelOption (p.1 + 1) p.2))

/-- HotelRecommendationTool run (hotel_tool.py lines 27-100). -/
def HotelRecommendationTool.run (inp : ToolInput HotelQuery)
    (loadRes : Except String (List Hotel)) : String :=
  match inp with
  | .jsonError => "Error: Invalid JSON format. Please provide valid JSON with a city key."
  | .extractError msg => "Error searching hotels: " ++ msg
  | .ok q =>
    let city := pyStrip (q.city.getD "")
    let min_rating := q.min_rating.getD 3
    let max_price := q.max_price_per_night
    if city = "" then "Error: City is required."
    else
      match loadRes with
      | .error msg => "Error searching hotels: " ++ msg
      | .ok hotels =>
        if (hotelCityFilter city hotels).isEmpty then
          "No hotels found in " ++ (city ++ ".")
        else
          let filtered := hotelFiltered city min_rating max_price hotels
          if filtered.isEmpty then
            "No hotels found in " ++ (city ++ " matching your criteria.")
          else
            formatHotelReport city (sortedHotels filtered).length
              ((sortedHotels filtered).take 3)

/-! ### Places Discovery Tool (src/src/tools/places_tool.py) -/

/-- One place record of data/places.json; the JSON key type is named typeTag
because type is a reserved word. -/
structure Place : Type where
  city : Option String
  typeTag : Option String
  rating : Option ℚ
  name : Option String
  description : Option String
  place_id : Option String
deriving DecidableEq

/-- The named parameters of PlacesDiscoveryTool. -/
structure PlacesQuery : Type where
  city : Option String
  category : Option String
  min_rating : Option ℚ

/-- The three filter stages of places_tool.py lines 44-63. -/
def placesFiltered (city category : String) (min_rating : ℚ)
    (places : List Place) : List Place :=
  let byCity := places.filter (fun p => pyLower (p.city.getD "") == pyLower city)
  let byCat :=
    if category = "" then byCity
    else byCity.filter (fun p => pyLower (p.typeTag.getD "") == pyLower category)
  byCat.filter (fun p => min_rating ≤ p.rating.getD 0)

/-- The descending rating sort of places_tool.py lines 70-73. -/
def sortedPlaces (l : List Place) : List Place :=
  List.insertionSort (fun a b => -(a.rating.getD 0) ≤ -(b.rating.getD 0)) l

/-- Rendering of one place (places_tool.py lines 83-93). -/
def formatPlaceOption (i : Nat) (p : Place) : String :=
  "\n" ++ toString i ++ ". " ++ p.name.getD "N/A" ++ "\n"
    ++ "   Category: " ++ p.typeTag.getD "N/A" ++ "\n"
    ++ "   Rating: " ++ toString (p.rating.getD 0) ++ "\n"
    ++ (match p.description.getD "" with
        | "" => ""
        | d => "   Description: " ++ d ++ "\n")
    ++ "   Place ID: " ++ p.place_id.getD "N/A" ++ "\n"
    ++ lineOf '-' 50 ++ "\n"

/-- Rendering of the places report (places_tool.py lines 79-93). -/
def formatPlacesReport (city category : String) (total : Nat)
    (top : List Place) : String :=
  "Found " ++ toString total ++ " places in " ++ city
    ++ (if category = "" then "" else " (" ++ category ++ ")")
    ++ " (showing top 5).\n\n" ++ "Recommended Places:\n" ++ lineOf '=' 50 ++ "\n"
    ++ String.join (top.enum.map (fun p => formatPlaceOption (p.1 + 1) p.2))

/-- PlacesDiscoveryTool run (places_tool.py lines 27-101). -/
def PlacesDiscoveryTool.run (inp : ToolInput PlacesQuery)
    (loadRes : Except String (List Place)) : String :=
  match inp with
  | .jsonError => "Error: Invalid JSON format."
  | .extractError msg => "Error searching places: " ++ msg
  | .ok q =>
    let city := pyStrip (q.city.getD "")
    let category := pyLower (pyStrip (q.category.getD ""))
    let min_rating := q.min_rating.getD 3.5
    if city = "" then "Error: City is required."
    else
      match loadRes with
      | .error msg => "Error searching places: " ++ msg
      | .ok places =>
        if (places.filter (fun p => pyLower (p.city.getD "") == pyLower city)).isEmpty then
          "No places found in " ++ (city ++ ".")
        else
          let filtered := placesFiltered city category min_rating places
          if filtered.isEmpty then
            "No places found in " ++ (city
              ++ ((if category = "" then "" else " in category " ++ category)
                  ++ " matching your criteria."))
          else
            formatPlacesReport city category (sortedPlaces filtered).length
              ((sortedPlaces filtered).take 5)

/-! ## Claims -/

/-- C1: for all inputs flight price, nightly price, night count n and daily
expense d, the budget calculation returns hotel_total = nightly price times
n, food and travel total = d times (n + 1), and total = flight price +
hotel_total + food and travel total; in particular flight=4800, nightly=3200,
nights=4, daily=2000 yields hotel_total=12800, incidental_total=10000 and
total=27600. -/
theorem budget_formula_exact :
    (∀ (flight_price nightly : ℚ) (n : Int) (d : ℚ),
      (calculate_budget flight_price nightly n (some d)).hotel_cost = nightly * (n : ℚ) ∧
      (calculate_budget flight_price nightly n (some d)).food_travel_cost
        = d * ((n : ℚ) + 1) ∧
      (calculate_budget flight_price nightly n (some d)).total_cost
        = flight_price + nightly * (n : ℚ) + d * ((n : ℚ) + 1)) ∧
    calculate_budget 4800 3200 4 (some 2000)
      = { flight_cost := 4800, hotel_cost := 12800, food_travel_cost := 10000,
          total_cost := 27600, per_day_average := 5520 } := by
  refine ⟨fun fp np n d => ⟨?_, ?_, ?_⟩, by norm_num [calculate_budget]⟩ <;>
    simp only [calculate_budget, Option.getD_some] <;> push_cast <;> ring

/-- C5: the weather condition label follows the fixed decision order on
precipitation p and windspeed w: p over 10 is rainy, else p over 2 is light
rain, else w over 30 is windy, else w over 15 is breezy, else clear; with the
four concrete instances of the spec. -/
theorem weather_condition_decision_order :
    (∀ p w : ℚ, 10 < p → get_weather_condition p w = "🌧️  Rainy") ∧
    (∀ p w : ℚ, p ≤ 10 → 2 < p → get_weather_condition p w = "🌦️  Light Rain") ∧
    (∀ p w : ℚ, p ≤ 2 → 30 < w → get_weather_condition p w = "💨  Windy") ∧
    (∀ p w : ℚ, p ≤ 2 → w ≤ 30 → 15 < w → get_weather_condition p w = "🌤️  Breezy") ∧
    (∀ p w : ℚ, p ≤ 2 → w ≤ 15 → get_weather_condition p w = "☀️  Clear/Sunny") ∧
    get_weather_condition 12 0 = "🌧️  Rainy" ∧
    get_weather_condition 5 0 = "🌦️  Light Rain" ∧
    get_weather_condition 0 20 = "🌤️  Breezy" ∧
    get_weather_condition 0 5 = "☀️  Clear/Sunny" := by
  refine ⟨fun p w h => ?_, fun p w h1 h2 => ?_, fun p w h1 h2 => ?_,
    fun p w h1 h2 h3 => ?_, fun p w h1 h2 => ?_, by norm_num [get_weather_condition],
    by norm_num [get_weather_condition], by norm_num [get_weather_condition],
    by norm_num [get_weather_condition]⟩
  · rw [get_weather_condition, if_pos h]
  · rw [get_weather_condition, if_neg (by linarith), if_pos h2]
  · rw [get_weather_condition, if_neg (by linarith), if_neg (by linarith), if_pos h2]
  · rw [get_weather_condition, if_neg (by linarith), if_neg (by linarith),
      if_neg (by linarith), if_pos h3]
  · rw [get_weather_condition, if_neg (by linarith), if_neg (by linarith),
      if_neg (by linarith), if_neg (by linarith)]

/-- Witness for C5: the theorem applied at the concrete spec instances. -/
theorem weather_condition_decision_order_witness :
    get_weather_condition 12 0 = "🌧️  Rainy" ∧ get_weather_condition 0 20 = "🌤️  Breezy" :=
  ⟨weather_condition_decision_order.1 12 0 (by norm_num),
   weather_condition_decision_order.2.2.2.1 0 20 (by norm_num) (by norm_num) (by norm_num)⟩

/-- C9: loading a resource path is idempotent: if a load returns an array and
leaves a cache, loading the same path against that cache returns the very
same array and cache without reading the file. -/
theorem load_json_idempotent {δ : Type} (fs : String → Option (Option δ))
    (cache : DataLoader.Cache δ) (p : String) (d : δ) (c : DataLoader.Cache δ)
    (b : Bool) (h : DataLoader.load_json fs cache p = .ok (d, c, b)) :
    DataLoader.load_json fs c p = .ok (d, c, false) := by
  unfold DataLoader.load_json at h ⊢
  cases hl : cache.lookup p with
  | some d0 =>
    rw [hl] at h
    simp only [Except.ok.injEq, Prod.mk.injEq] at h
    obtain ⟨rfl, rfl, rfl⟩ := h
    rw [hl]
  | none =>
    rw [hl] at h
    cases hf : fs p with
    | none => rw [hf] at h; cases h
    | some o =>
      cases o with
      | none => rw [hf] at h; cases h
      | some d0 =>
        rw [hf] at h
        simp only [Except.ok.injEq, Prod.mk.injEq] at h
        obtain ⟨rfl, rfl, rfl⟩ := h
        simp [List.lookup]

/-- A one-file filesystem used as the concrete input of the C9 witness. -/
def fsFlights : String → Option (Option (List Nat)) :=
  fun p => if p = "data/flights.json" then some (some [1, 2, 3]) else none

/-- Witness for C9: a concrete first load from an empty cache, then the
second load served from the cache without a disk read. -/
theorem load_json_idempotent_witness :
    DataLoader.load_json fsFlights [("data/flights.json", [1, 2, 3])] "data/flights.json"
      = .ok ([1, 2, 3], [("data/flights.json", [1, 2, 3])], false) :=
  load_json_idempotent fsFlights [] "data/flights.json" [1, 2, 3]
    [("data/flights.json", [1, 2, 3])] true (by rfl)

/-- A hotel record used as concrete input by the hotel claims. -/
def grandResort : Hotel :=
  { city := some "Goa", stars := some 5, price_per_night := some 5000,
    name := some "Grand Resort", amenities := some ["pool"], hotel_id := some "H1" }

/-- C10: a supplied maximum nightly price of 0 disables the price filter
entirely instead of keeping only hotels of price at most 0: filtering with
ceiling 0 equals filtering with no ceiling, and a 5000-rupee hotel survives a
supplied ceiling of 0. -/
theorem hotel_zero_ceiling_disables_price_filter :
    (∀ (city : String) (min_rating : Int) (hotels : List Hotel),
        hotelFiltered city min_rating (some 0) hotels
          = hotelFiltered city min_rating none hotels) ∧
    hotelFiltered "Goa" 3 (some 0) [grandResort] = [grandResort] ∧
    grandResort.price_per_night = some 5000 ∧ ¬ ((5000 : ℚ) ≤ 0) := by
  refine ⟨fun city r hotels => ?_, by decide, rfl, by norm_num⟩
  simp [hotelFiltered, truthyNum]

/-- Counterexample to C7 as stated: with a supplied price ceiling of 0 the
result set is not restricted to hotels of nightly price at most the ceiling —
the 5000-rupee hotel is returned. -/
theorem hotel_query_exact_set_counterexample :
    hotelFiltered "Goa" 3 (some 0) [grandResort] = [grandResort] ∧
    ¬ (∀ h ∈ hotelFiltered "Goa" 3 (some 0) [grandResort],
        h.price_per_night.getD 0 ≤ (0 : ℚ)) := by
  refine ⟨by decide, fun hall => ?_⟩
  have h5 := hall grandResort (by decide)
  norm_num [grandResort] at h5

/-- C7 amended: for a supplied nonzero ceiling m the result set is exactly the
records matching the city case-insensitively with star rating at least the
minimum and nightly price at most m (with no ceiling, the price conjunct is
dropped); the survivors are sorted by descending stars then ascending price,
the sorted list is a permutation of the survivors, and the report takes at
most its first three records. -/
theorem hotel_query_filter_sort_top3 (city : String) (min_rating : Int) (m : ℚ)
    (hm : m ≠ 0) (hotels : List Hotel) :
    hotelFiltered city min_rating (some m) hotels
      = hotels.filter (fun h =>
          (pyLower (h.city.getD "") == pyLower city)
          && (decide ((min_rating : ℚ) ≤ h.stars.getD 0))
          && (match h.price_per_night with
              | some p => decide (p ≤ m)
              | none => false)) ∧
    hotelFiltered city min_rating none hotels
      = hotels.filter (fun h =>
          (pyLower (h.city.getD "") == pyLower city)
          && (decide ((min_rating : ℚ) ≤ h.stars.getD 0))) ∧
    (sortedHotels (hotelFiltered city min_rating (some m) hotels)).Pairwise
      (fun a b => b.stars.getD 0 < a.stars.getD 0 ∨
        (a.stars.getD 0 = b.stars.getD 0
          ∧ a.price_per_night.getD 0 ≤ b.price_per_night.getD 0)) ∧
    List.Perm (sortedHotels (hotelFiltered city min_rating (some m) hotels))
      (hotelFiltered city min_rating (some m) hotels) ∧
    ((sortedHotels (hotelFiltered city min_rating (some m) hotels)).take 3).length ≤ 3 ∧
    ((sortedHotels (hotelFiltered city min_rating (some m) hotels)).take 3)
      <+: sortedHotels (hotelFiltered city min_rating (some m) hotels) := by
  have hcomp : hotelFiltered city min_rating (some m) hotels
      = hotels.filter (fun h =>
          (pyLower (h.city.getD "") == pyLower city)
          && (decide ((min_rating : ℚ) ≤ h.stars.getD 0))
          && (match h.price_per_night with
              | some p => decide (p ≤ m)
              | none => false)) := by
    unfold hotelFiltered hotelPriceFilter hotelStarsFilter hotelCityFilter
    rw [if_pos (by simp [truthyNum, hm])]
    rw [List.filter_filter, List.filter_filter]
    apply List.filter_congr
    intro h _
    simp only [Option.getD_some]
    cases h.price_per_night <;> cases hc : pyLower (h.city.getD "") == pyLower city <;>
      cases hs : decide ((min_rating : ℚ) ≤ h.stars.getD 0) <;> simp [hc, hs]
  refine ⟨hcomp, ?_, ?_, List.perm_insertionSort _ _, ?_, List.take_prefix 3 _⟩
  · unfold hotelFiltered hotelStarsFilter hotelCityFilter
    rw [if_neg (by simp [truthyNum])]
    rw [List.filter_filter]
    apply List.filter_congr
    intro h _
    cases hc : pyLower (h.city.getD "") == pyLower city <;>
      cases hs : decide ((min_rating : ℚ) ≤ h.stars.getD 0) <;> simp [hc, hs]
  · have hp := pairwise_insertionSort_key hotelKey
      (hotelFiltered city min_rating (some m) hotels)
    refine List.Pairwise.imp ?_ hp
    intro a b hab
    rcases (Prod.Lex.le_iff _ _).1 hab with h1 | ⟨h1, h2⟩
    · exact Or.inl (by simpa using neg_lt_neg_iff.1 h1)
    · exact Or.inr ⟨by simpa using neg_inj.1 h1, h2⟩
  · simp [List.length_take]

/-- Witness for C7: the amended filter characterization applied at a concrete
city, minimum rating, nonzero ceiling and hotel list. -/
theorem hotel_query_filter_sort_top3_witness :
    hotelFiltered "Goa" 3 (some 4000) [grandResort]
      = [grandResort].filter (fun h =>
          (pyLower (h.city.getD "") == pyLower "Goa")
          && (decide (((3 : Int) : ℚ) ≤ h.stars.getD 0))
          && (match h.price_per_night with
              | some p => decide (p ≤ (4000 : ℚ))
              | none => false)) :=
  (hotel_query_filter_sort_top3 "Goa" 3 4000 (by norm_num) [grandResort]).1

/-! Closed Error-prefix facts about the literal failure messages of the tools. -/

theorem swe_invalid_json : startsWithError "Error: Invalid JSON format." :=
  ⟨": Invalid JSON format.", by decide⟩

theorem swe_invalid_json_city :
    startsWithError "Error: Invalid JSON format. Please provide valid JSON with a city key." :=
  ⟨": Invalid JSON format. Please provide valid JSON with a city key.", by decide⟩

theorem swe_source_dest_required :
    startsWithError "Error: Both source and destination are required." :=
  ⟨": Both source and destination are required.", by decide⟩

theorem swe_city_required : startsWithError "Error: City is required." :=
  ⟨": City is required.", by decide⟩

theorem swe_city_start_required :
    startsWithError "Error: Both city and start_date are required." :=
  ⟨": Both city and start_date are required.", by decide⟩

theorem swe_searching_flights : startsWithError "Error searching flights: " :=
  ⟨" searching flights: ", by decide⟩

theorem swe_searching_hotels : startsWithError "Error searching hotels: " :=
  ⟨" searching hotels: ", by decide⟩

theorem swe_searching_places : startsWithError "Error searching places: " :=
  ⟨" searching places: ", by decide⟩

theorem swe_calculating_budget : startsWithError "Error calculating budget: " :=
  ⟨" calculating budget: ", by decide⟩

theorem swe_fetching_weather : startsWithError "Error fetching weather: " :=
  ⟨" fetching weather: ", by decide⟩

theorem swe_coords_prefix : startsWithError "Error: Coordinates not found for " :=
  ⟨": Coordinates not found for ", by decide⟩

theorem swe_fetch_prefix : startsWithError "Error: Could not fetch weather data for " :=
  ⟨": Could not fetch weather data for ", by decide⟩

/-- Helper: a flight invocation whose data load raised returns an Error text. -/
theorem flight_run_load_error_swe (inp : ToolInput FlightQuery) (msg : String) :
    startsWithError (FlightSearchTool.run inp (.error msg)) := by
  unfold FlightSearchTool.run
  split
  · exact swe_invalid_json
  · exact startsWithError_append _ swe_searching_flights
  · dsimp only
    split
    · exact swe_source_dest_required
    · exact startsWithError_append _ swe_searching_flights

/-- Helper: a hotel invocation whose data load raised returns an Error text. -/
theorem hotel_run_load_error_swe (inp : ToolInput HotelQuery) (msg : String) :
    startsWithError (HotelRecommendationTool.run inp (.error msg)) := by
  unfold HotelRecommendationTool.run
  split
  · exact swe_invalid_json_city
  · exact startsWithError_append _ swe_searching_hotels
  · dsimp only
    split
    · exact swe_city_required
    · exact startsWithError_append _ swe_searching_hotels

/-- Helper: a places invocation whose data load raised returns an Error text. -/
theorem places_run_load_error_swe (inp : ToolInput PlacesQuery) (msg : String) :
    startsWithError (PlacesDiscoveryTool.run inp (.error msg)) := by
  unfold PlacesDiscoveryTool.run
  split
  · exact swe_invalid_json
  · exact startsWithError_append _ swe_searching_places
  · dsimp only
    split
    · exact swe_city_required
    · exact startsWithError_append _ swe_searching_places

/-- Helper: a weather invocation whose fetch failed (empty day list) returns
an Error text on every path. -/
theorem weather_run_empty_data_swe (q : WeatherQuery) :
    startsWithError (WeatherLookupTool.run (.ok q) []) := by
  unfold WeatherLookupTool.run
  dsimp only
  split
  · exact swe_city_start_required
  · split
    · exact startsWithError_append _ swe_coords_prefix
    · exact startsWithError_append _ swe_fetch_prefix

/-- C4 counterexample: a missing flights file makes load_json raise NotFound,
but the flight tool invocation does not escalate it as an exception — the
generic handler of the tool converts it into an ordinary Error text result. -/
theorem notfound_escalation_counterexample :
    DataLoader.load_json (fun _ => (none : Option (Option (List Flight)))) []
        "data/flights.json"
      = .error (.fileNotFound "data/flights.json") ∧
    FlightSearchTool.run
        (.ok { source := some "Delhi", destination := some "Goa",
               preference := some "cheapest" })
        (.error "Data file not found: data/flights.json")
      = "Error searching flights: Data file not found: data/flights.json" :=
  ⟨rfl, by decide⟩

/-- C4 amended: the NotFound failure raised at load time is caught by the
generic exception handler of each query tool and converted to a text result
beginning with Error; it never propagates out of the invocation. -/
theorem notfound_caught_at_tool_boundary :
    (∀ (inp : ToolInput FlightQuery) (msg : String),
        startsWithError (FlightSearchTool.run inp (.error msg))) ∧
    (∀ (inp : ToolInput HotelQuery) (msg : String),
        startsWithError (HotelRecommendationTool.run inp (.error msg))) ∧
    (∀ (inp : ToolInput PlacesQuery) (msg : String),
        startsWithError (PlacesDiscoveryTool.run inp (.error msg))) :=
  ⟨flight_run_load_error_swe, hotel_run_load_error_swe, places_run_load_error_swe⟩

/-- C3: every tool run function is total — it returns a string for every
input and never raises across the boundary — and on every failure class:
malformed JSON, an exception inside parameter extraction, a data load
exception, or a failed weather fetch, the returned string begins with
Error. -/
theorem tool_boundary_error_strings :
    (∀ loadRes, startsWithError (FlightSearchTool.run .jsonError loadRes)) ∧
    (∀ msg loadRes, startsWithError (FlightSearchTool.run (.extractError msg) loadRes)) ∧
    (∀ q msg, startsWithError (FlightSearchTool.run (.ok q) (.error msg))) ∧
    (∀ loadRes, startsWithError (HotelRecommendationTool.run .jsonError loadRes)) ∧
    (∀ msg loadRes, startsWithError (HotelRecommendationTool.run (.extractError msg) loadRes)) ∧
    (∀ q msg, startsWithError (HotelRecommendationTool.run (.ok q) (.error msg))) ∧
    (∀ loadRes, startsWithError (PlacesDiscoveryTool.run .jsonError loadRes)) ∧
    (∀ msg loadRes, startsWithError (PlacesDiscoveryTool.run (.extractError msg) loadRes)) ∧
    (∀ q msg, startsWithError (PlacesDiscoveryTool.run (.ok q) (.error msg))) ∧
    startsWithError (BudgetEstimationTool.run .jsonError) ∧
    (∀ msg, startsWithError (BudgetEstimationTool.run (.extractError msg))) ∧
    (∀ data, startsWithError (WeatherLookupTool.run .jsonError data)) ∧
    (∀ msg data, startsWithError (WeatherLookupTool.run (.extractError msg) data)) ∧
    (∀ q, startsWithError (WeatherLookupTool.run (.ok q) [])) :=
  ⟨fun _ => swe_invalid_json,
   fun msg _ => startsWithError_append msg swe_searching_flights,
   fun q msg => flight_run_load_error_swe (.ok q) msg,
   fun _ => swe_invalid_json_city,
   fun msg _ => startsWithError_append msg swe_searching_hotels,
   fun q msg => hotel_run_load_error_swe (.ok q) msg,
   fun _ => swe_invalid_json,
   fun msg _ => startsWithError_append msg swe_searching_places,
   fun q msg => places_run_load_error_swe (.ok q) msg,
   swe_invalid_json,
   fun msg => startsWithError_append msg swe_calculating_budget,
   fun _ => swe_invalid_json,
   fun msg _ => startsWithError_append msg swe_fetching_weather,
   weather_run_empty_data_swe⟩


/-- Relation between a record as first parsed and the same record after a
flight invocation: every field is unchanged, except that duration_hours may
have been filled in when it was absent. -/
def onlyAddsDuration (f g : Flight) : Prop :=
  g.fromCity = f.fromCity ∧ g.toCity = f.toCity ∧ g.price = f.price ∧
  g.departure_time = f.departure_time ∧ g.arrival_time = f.arrival_time ∧
  g.airline = f.airline ∧ g.flight_id = f.flight_id ∧
  (f.duration_hours.isSome = true → g.duration_hours = f.duration_hours)

theorem onlyAddsDuration_refl (f : Flight) : onlyAddsDuration f f :=
  ⟨rfl, rfl, rfl, rfl, rfl, rfl, rfl, fun _ => rfl⟩

theorem onlyAddsDuration_withDuration (f : Flight) :
    onlyAddsDuration f (withDuration f) := by
  unfold withDuration
  by_cases hd : f.duration_hours.isSome = true
  · rw [if_pos hd]; exact onlyAddsDuration_refl f
  · rw [if_neg hd]
    cases hdep : fromisoformat (f.departure_time.getD "") <;>
      cases harr : fromisoformat (f.arrival_time.getD "") <;>
      exact ⟨rfl, rfl, rfl, rfl, rfl, rfl, rfl, fun h => absurd h hd⟩

/-- A flight record of the backing array, lacking the duration_hours key. -/
def delhiGoaFlight : Flight :=
  { fromCity := some "Delhi", toCity := some "Goa", price := some 4500,
    duration_hours := none, departure_time := some "2025-02-15T10:00:00",
    arrival_time := some "2025-02-15T12:35:00", airline := some "IndiGo",
    flight_id := some "AI101" }

theorem withDuration_delhiGoa :
    withDuration delhiGoaFlight = { delhiGoaFlight with duration_hours := some (13 / 5) } := by
  have h1 : fromisoformat (delhiGoaFlight.departure_time.getD "") = some 63875210400 := by
    decide
  have h2 : fromisoformat (delhiGoaFlight.arrival_time.getD "") = some 63875219700 := by
    decide
  unfold withDuration
  rw [if_neg (by decide), h1, h2]
  simp only [Flight.mk.injEq, Option.some.injEq]
  norm_num [pyRound1, roundHalfEven, delhiGoaFlight]

/-- C2 counterexample: after one flight invocation the cached backing array
is no longer identical to the array as first parsed — the matching record had
a duration_hours field added in place. -/
theorem records_never_mutated_counterexample :
    FlightSearchTool.cacheAfter
        (.ok { source := some "Delhi", destination := some "Goa", preference := none })
        [delhiGoaFlight]
      = [{ delhiGoaFlight with duration_hours := some (13 / 5) }] ∧
    FlightSearchTool.cacheAfter
        (.ok { source := some "Delhi", destination := some "Goa", preference := none })
        [delhiGoaFlight]
      ≠ [delhiGoaFlight] := by
  have heq : FlightSearchTool.cacheAfter
      (.ok { source := some "Delhi", destination := some "Goa", preference := none })
      [delhiGoaFlight]
    = [{ delhiGoaFlight with duration_hours := some (13 / 5) }] := by
    unfold FlightSearchTool.cacheAfter
    dsimp only
    rw [if_neg (by decide), if_neg (by decide)]
    simp only [List.map_cons, List.map_nil]
    rw [if_pos (by decide), withDuration_delhiGoa]
  exact ⟨heq, by rw [heq]; decide⟩

/-- C2 amended: a flight invocation is the only mutation of loaded records,
and it only fills in a missing duration_hours field of records matching the
query; every other field of every cached record, and the duration of a record
that already had one, survive unchanged. -/
theorem flight_mutation_only_adds_duration (inp : ToolInput FlightQuery)
    (flights : List Flight) :
    List.Forall₂ onlyAddsDuration flights (FlightSearchTool.cacheAfter inp flights) := by
  have hrefl : ∀ l : List Flight, List.Forall₂ onlyAddsDuration l l :=
    fun l => List.forall₂_same.2 fun x _ => onlyAddsDuration_refl x
  cases inp with
  | jsonError => exact hrefl _
  | extractError m => exact hrefl _
  | ok q =>
    unfold FlightSearchTool.cacheAfter
    dsimp only
    split
    · exact hrefl _
    · split
      · exact hrefl _
      · rw [List.forall₂_map_right_iff]
        refine List.forall₂_same.2 fun x _ => ?_
        by_cases h : flightMatches (pyStrip (q.source.getD ""))
            (pyStrip (q.destination.getD "")) x = true
        · rw [if_pos h]; exact onlyAddsDuration_withDuration x
        · rw [if_neg h]; exact onlyAddsDuration_refl x

/-- C8 counterexample: a 2 hour 35 minute flight has its derived duration
stored as 2.6 hours (half-even rounding to one decimal), not as the exact
timestamp difference 31/12 hours that the claim states. -/
theorem duration_exact_difference_counterexample :
    (withDuration delhiGoaFlight).duration_hours = some (13 / 5) ∧
    fromisoformat "2025-02-15T10:00:00" = some 63875210400 ∧
    fromisoformat "2025-02-15T12:35:00" = some 63875219700 ∧
    ((63875219700 - 63875210400 : Int) : ℚ) / 3600 = 31 / 12 ∧
    (13 / 5 : ℚ) ≠ 31 / 12 := by
  refine ⟨?_, by decide, by decide, by norm_num, by norm_num⟩
  rw [withDuration_delhiGoa]

/-- C8 amended: for a surviving record without a precomputed duration, the
flight query sets duration_hours to the difference of the parsed arrival and
departure timestamps in hours rounded to one decimal place; when either
timestamp fails to parse, it sets duration_hours to zero. -/
theorem duration_derivation_rounded (src dst : String) (l : List Flight) (f : Flight)
    (hmem : f ∈ filteredFlights src dst l) (hnone : f.duration_hours = none) :
    (∀ t0 t1 : Int, fromisoformat (f.departure_time.getD "") = some t0 →
        fromisoformat (f.arrival_time.getD "") = some t1 →
        (withDuration f).duration_hours = some (pyRound1 (((t1 - t0 : Int) : ℚ) / 3600))) ∧
    ((fromisoformat (f.departure_time.getD "") = none ∨
        fromisoformat (f.arrival_time.getD "") = none) →
      (withDuration f).duration_hours = some 0) := by
  have hiss : ¬ (f.duration_hours.isSome = true) := by rw [hnone]; simp
  constructor
  · intro t0 t1 h0 h1
    unfold withDuration
    rw [if_neg hiss, h0, h1]
  · intro h
    unfold withDuration
    rw [if_neg hiss]
    rcases h with h | h
    · rw [h]
    · rw [h]
      cases hdep : fromisoformat (f.departure_time.getD "") <;> rfl

/-- Witness for C8: the amended derivation applied to the concrete record,
with both timestamps parsed concretely. -/
theorem duration_derivation_rounded_witness :
    (withDuration delhiGoaFlight).duration_hours
      = some (pyRound1 (((63875219700 - 63875210400 : Int) : ℚ) / 3600)) :=
  (duration_derivation_rounded "Delhi" "Goa" [delhiGoaFlight] delhiGoaFlight
      (by decide) rfl).1 63875210400 63875219700 (by decide) (by decide)

/-- C6: for every flight list the query sorts ascending by price for the
cheapest preference (any preference other than fastest, in particular the
default), ascending by duration for fastest; the sort is stable (records
with an equal sort key keep their relative order — stated as: filtering the
sorted list to any one key value gives exactly the original sublist of that
key) and is a permutation of its input; and on the success path the report
receives the count of all filtered records together with exactly the first
three records of the sorted list. -/
theorem flight_sort_stable_top3 :
    (∀ l : List Flight,
      (sortedFlights "cheapest" l).Pairwise (fun a b => priceKey a ≤ priceKey b) ∧
      (sortedFlights "fastest" l).Pairwise (fun a b => durationKey a ≤ durationKey b) ∧
      List.Perm (sortedFlights "cheapest" l) l ∧
      List.Perm (sortedFlights "fastest" l) l ∧
      (∀ k : ℚ, (sortedFlights "cheapest" l).filter (fun f => priceKey f == k)
          = l.filter (fun f => priceKey f == k)) ∧
      (∀ k : ℚ, (sortedFlights "fastest" l).filter (fun f => durationKey f == k)
          = l.filter (fun f => durationKey f == k)) ∧
      (∀ pref : String, pref ≠ "fastest" → sortedFlights pref l = sortedFlights "cheapest" l)) ∧
    (∀ (q : FlightQuery) (flights : List Flight),
      pyStrip (q.source.getD "") ≠ "" →
      pyStrip (q.destination.getD "") ≠ "" →
      filteredFlights (pyStrip (q.source.getD "")) (pyStrip (q.destination.getD ""))
          flights ≠ [] →
      FlightSearchTool.run (.ok q) (.ok flights)
        = formatFlightReport (pyStrip (q.source.getD "")) (pyStrip (q.destination.getD ""))
            (filteredFlights (pyStrip (q.source.getD ""))
              (pyStrip (q.destination.getD "")) flights).length
            ((sortedFlights (pyLower (q.preference.getD "cheapest"))
                ((filteredFlights (pyStrip (q.source.getD ""))
                  (pyStrip (q.destination.getD "")) flights).map withDuration)).take 3)) := by
  have hc : ∀ l : List Flight, sortedFlights "cheapest" l
      = List.insertionSort (fun a b => priceKey a ≤ priceKey b) l := by
    intro l; unfold sortedFlights; rw [if_neg (by decide)]
  have hf : ∀ l : List Flight, sortedFlights "fastest" l
      = List.insertionSort (fun a b => durationKey a ≤ durationKey b) l := by
    intro l; unfold sortedFlights; rw [if_pos rfl]
  have hlen : ∀ (p : String) (l : List Flight), (sortedFlights p l).length = l.length := by
    intro p l; unfold sortedFlights; split <;> exact List.length_insertionSort _ _
  constructor
  · intro l
    refine ⟨?_, ?_, ?_, ?_, ?_, ?_, ?_⟩
    · rw [hc]; exact pairwise_insertionSort_key priceKey l
    · rw [hf]; exact pairwise_insertionSort_key durationKey l
    · rw [hc]; exact List.perm_insertionSort _ l
    · rw [hf]; exact List.perm_insertionSort _ l
    · intro k; rw [hc]; exact filter_insertionSort_key priceKey k l
    · intro k; rw [hf]; exact filter_insertionSort_key durationKey k l
    · intro pref hpref
      rw [hc]; unfold sortedFlights; rw [if_neg hpref]
  · intro q flights h1 h2 h3
    unfold FlightSearchTool.run
    dsimp only
    rw [if_neg (by simp [h1, h2]), if_neg (by simp [List.isEmpty_iff, h3])]
    rw [hlen, List.length_map]

/-- The flight query used by the C6 witness. -/
def qC6 : FlightQuery :=
  { source := some "Delhi", destination := some "Goa", preference := some "cheapest" }

/-- Flight records used by the C6 witness, with a price tie. -/
def flC6 : List Flight :=
  [{ fromCity := some "Delhi", toCity := some "Goa", price := some 4500,
     duration_hours := some 2, departure_time := none, arrival_time := none,
     airline := some "IndiGo", flight_id := some "F1" },
   { fromCity := some "Delhi", toCity := some "Goa", price := some 4500,
     duration_hours := some 3, departure_time := none, arrival_time := none,
     airline := some "AirIndia", flight_id := some "F2" },
   { fromCity := some "Delhi", toCity := some "Goa", price := some 3000,
     duration_hours := some 4, departure_time := none, arrival_time := none,
     airline := some "Vistara", flight_id := some "F3" }]

/-- Witness for C6: the success path equation applied at a concrete query and
record list. -/
theorem flight_sort_stable_top3_witness :
    FlightSearchTool.run (.ok qC6) (.ok flC6)
      = formatFlightReport (pyStrip (qC6.source.getD "")) (pyStrip (qC6.destination.getD ""))
          (filteredFlights (pyStrip (qC6.source.getD ""))
            (pyStrip (qC6.destination.getD "")) flC6).length
          ((sortedFlights (pyLower (qC6.preference.getD "cheapest"))
              ((filteredFlights (pyStrip (qC6.source.getD ""))
                (pyStrip (qC6.destination.getD "")) flC6).map withDuration)).take 3) :=
  flight_sort_stable_top3.2 qC6 flC6 (by decide) (by decide) (by decide)
